import Mathlib

/-!
Shallow embedding of the OpenXR loader's diagnostic-message dispatch subsystem
(`src/loader/loader_logger.cpp`): message severity/type bit vocabularies, the four
flag-translation functions between the native loader scheme and the
`XR_EXT_debug_utils` scheme, the recorder registry, the two dispatch entry points,
and the logger singleton's construction.

Bit-flag values are `Nat` with explicit masks where machine-width matters.
Collaborators that live outside the translation unit (recorder factories, the
`DebugUtilsData` augmentation helpers, `vector_remove_if_and_erase`) are modelled
from the specification, each marked as such in its doc comment.
-/

/-- Severity bit `XR_LOADER_LOG_MESSAGE_SEVERITY_VERBOSE_BIT` of the loader's native
vocabulary (declared in `loader_logger.hpp`). -/
def XR_LOADER_LOG_MESSAGE_SEVERITY_VERBOSE_BIT : Nat := 0x00000001

/-- Severity bit `XR_LOADER_LOG_MESSAGE_SEVERITY_INFO_BIT`. -/
def XR_LOADER_LOG_MESSAGE_SEVERITY_INFO_BIT : Nat := 0x00000010

/-- Severity bit `XR_LOADER_LOG_MESSAGE_SEVERITY_WARNING_BIT`. -/
def XR_LOADER_LOG_MESSAGE_SEVERITY_WARNING_BIT : Nat := 0x00000100

/-- Severity bit `XR_LOADER_LOG_MESSAGE_SEVERITY_ERROR_BIT`. -/
def XR_LOADER_LOG_MESSAGE_SEVERITY_ERROR_BIT : Nat := 0x00001000

/-- Message-type bit `XR_LOADER_LOG_MESSAGE_TYPE_GENERAL_BIT`. -/
def XR_LOADER_LOG_MESSAGE_TYPE_GENERAL_BIT : Nat := 0x00000001

/-- Message-type bit `XR_LOADER_LOG_MESSAGE_TYPE_SPECIFICATION_BIT`. -/
def XR_LOADER_LOG_MESSAGE_TYPE_SPECIFICATION_BIT : Nat := 0x00000002

/-- Message-type bit `XR_LOADER_LOG_MESSAGE_TYPE_PERFORMANCE_BIT`. -/
def XR_LOADER_LOG_MESSAGE_TYPE_PERFORMANCE_BIT : Nat := 0x00000004

/-- `XR_LOADER_LOG_MESSAGE_TYPE_DEFAULT_BITS` (all message-type bits set). -/
def XR_LOADER_LOG_MESSAGE_TYPE_DEFAULT_BITS : Nat := 0xffffffff

/-- Debug-utils severity bit `XR_DEBUG_UTILS_MESSAGE_SEVERITY_VERBOSE_BIT_EXT`
(from `openxr.h`). -/
def XR_DEBUG_UTILS_MESSAGE_SEVERITY_VERBOSE_BIT_EXT : Nat := 0x00000001

/-- Debug-utils severity bit `XR_DEBUG_UTILS_MESSAGE_SEVERITY_INFO_BIT_EXT`. -/
def XR_DEBUG_UTILS_MESSAGE_SEVERITY_INFO_BIT_EXT : Nat := 0x00000010

/-- Debug-utils severity bit `XR_DEBUG_UTILS_MESSAGE_SEVERITY_WARNING_BIT_EXT`. -/
def XR_DEBUG_UTILS_MESSAGE_SEVERITY_WARNING_BIT_EXT : Nat := 0x00000100

/-- Debug-utils severity bit `XR_DEBUG_UTILS_MESSAGE_SEVERITY_ERROR_BIT_EXT`. -/
def XR_DEBUG_UTILS_MESSAGE_SEVERITY_ERROR_BIT_EXT : Nat := 0x00001000

/-- Debug-utils message-type bit `XR_DEBUG_UTILS_MESSAGE_TYPE_GENERAL_BIT_EXT`. -/
def XR_DEBUG_UTILS_MESSAGE_TYPE_GENERAL_BIT_EXT : Nat := 0x00000001

/-- Debug-utils message-type bit `XR_DEBUG_UTILS_MESSAGE_TYPE_VALIDATION_BIT_EXT`. -/
def XR_DEBUG_UTILS_MESSAGE_TYPE_VALIDATION_BIT_EXT : Nat := 0x00000002

/-- Debug-utils message-type bit `XR_DEBUG_UTILS_MESSAGE_TYPE_PERFORMANCE_BIT_EXT`. -/
def XR_DEBUG_UTILS_MESSAGE_TYPE_PERFORMANCE_BIT_EXT : Nat := 0x00000004

/-- `DebugUtilsSeveritiesToLoaderLogMessageSeverities` (loader_logger.cpp lines 50-66):
translates debug-utils severity flags to native loader severity flags, testing each
known bit and accumulating the corresponding output bit. -/
def DebugUtilsSeveritiesToLoaderLogMessageSeverities (utils_severities : Nat) : Nat :=
  let log_severities : Nat := 0
  let log_severities :=
    if utils_severities &&& XR_DEBUG_UTILS_MESSAGE_SEVERITY_VERBOSE_BIT_EXT ≠ 0 then
      log_severities ||| XR_LOADER_LOG_MESSAGE_SEVERITY_VERBOSE_BIT
    else log_severities
  let log_severities :=
    if utils_severities &&& XR_DEBUG_UTILS_MESSAGE_SEVERITY_INFO_BIT_EXT ≠ 0 then
      log_severities ||| XR_LOADER_LOG_MESSAGE_SEVERITY_INFO_BIT
    else log_severities
  let log_severities :=
    if utils_severities &&& XR_DEBUG_UTILS_MESSAGE_SEVERITY_WARNING_BIT_EXT ≠ 0 then
      log_severities ||| XR_LOADER_LOG_MESSAGE_SEVERITY_WARNING_BIT
    else log_severities
  let log_severities :=
    if utils_severities &&& XR_DEBUG_UTILS_MESSAGE_SEVERITY_ERROR_BIT_EXT ≠ 0 then
      log_severities ||| XR_LOADER_LOG_MESSAGE_SEVERITY_ERROR_BIT
    else log_severities
  log_severities

/-- `LoaderLogMessageSeveritiesToDebugUtilsMessageSeverities` (lines 68-84). -/
def LoaderLogMessageSeveritiesToDebugUtilsMessageSeverities (log_severities : Nat) : Nat :=
  let utils_severities : Nat := 0
  let utils_severities :=
    if log_severities &&& XR_LOADER_LOG_MESSAGE_SEVERITY_VERBOSE_BIT ≠ 0 then
      utils_severities ||| XR_DEBUG_UTILS_MESSAGE_SEVERITY_VERBOSE_BIT_EXT
    else utils_severities
  let utils_severities :=
    if log_severities &&& XR_LOADER_LOG_MESSAGE_SEVERITY_INFO_BIT ≠ 0 then
      utils_severities ||| XR_DEBUG_UTILS_MESSAGE_SEVERITY_INFO_BIT_EXT
    else utils_severities
  let utils_severities :=
    if log_severities &&& XR_LOADER_LOG_MESSAGE_SEVERITY_WARNING_BIT ≠ 0 then
      utils_severities ||| XR_DEBUG_UTILS_MESSAGE_SEVERITY_WARNING_BIT_EXT
    else utils_severities
  let utils_severities :=
    if log_severities &&& XR_LOADER_LOG_MESSAGE_SEVERITY_ERROR_BIT ≠ 0 then
      utils_severities ||| XR_DEBUG_UTILS_MESSAGE_SEVERITY_ERROR_BIT_EXT
    else utils_severities
  utils_severities

/-- `DebugUtilsMessageTypesToLoaderLogMessageTypes` (lines 86-98); note the
debug-utils VALIDATION bit becomes the loader's SPECIFICATION bit. -/
def DebugUtilsMessageTypesToLoaderLogMessageTypes (utils_types : Nat) : Nat :=
  let log_types : Nat := 0
  let log_types :=
    if utils_types &&& XR_DEBUG_UTILS_MESSAGE_TYPE_GENERAL_BIT_EXT ≠ 0 then
      log_types ||| XR_LOADER_LOG_MESSAGE_TYPE_GENERAL_BIT
    else log_types
  let log_types :=
    if utils_types &&& XR_DEBUG_UTILS_MESSAGE_TYPE_VALIDATION_BIT_EXT ≠ 0 then
      log_types ||| XR_LOADER_LOG_MESSAGE_TYPE_SPECIFICATION_BIT
    else log_types
  let log_types :=
    if utils_types &&& XR_DEBUG_UTILS_MESSAGE_TYPE_PERFORMANCE_BIT_EXT ≠ 0 then
      log_types ||| XR_LOADER_LOG_MESSAGE_TYPE_PERFORMANCE_BIT
    else log_types
  log_types

/-- `LoaderLogMessageTypesToDebugUtilsMessageTypes` (lines 100-112); the loader's
SPECIFICATION bit becomes the debug-utils VALIDATION bit. -/
def LoaderLogMessageTypesToDebugUtilsMessageTypes (log_types : Nat) : Nat :=
  let utils_types : Nat := 0
  let utils_types :=
    if log_types &&& XR_LOADER_LOG_MESSAGE_TYPE_GENERAL_BIT ≠ 0 then
      utils_types ||| XR_DEBUG_UTILS_MESSAGE_TYPE_GENERAL_BIT_EXT
    else utils_types
  let utils_types :=
    if log_types &&& XR_LOADER_LOG_MESSAGE_TYPE_SPECIFICATION_BIT ≠ 0 then
      utils_types ||| XR_DEBUG_UTILS_MESSAGE_TYPE_VALIDATION_BIT_EXT
    else utils_types
  let utils_types :=
    if log_types &&& XR_LOADER_LOG_MESSAGE_TYPE_PERFORMANCE_BIT ≠ 0 then
      utils_types ||| XR_DEBUG_UTILS_MESSAGE_TYPE_PERFORMANCE_BIT_EXT
    else utils_types
  utils_types

/-- The union of the four known severity bits (identical in both vocabularies). -/
def severityKnownMask : Nat := 0x00001111

/-- The union of the three known message-type bits (identical in both vocabularies). -/
def messageTypeKnownMask : Nat := 0x00000007

lemma nat_and_lor_left (a b c : Nat) : a &&& (b ||| c) = (a &&& b) ||| (a &&& c) :=
  Nat.eq_of_testBit_eq fun i => by
    simp [Nat.testBit_and, Nat.testBit_or, Bool.and_or_distrib_left]

lemma nat_and_one (u : Nat) : u &&& 1 = (u.testBit 0).toNat * 1 := by
  have h := Nat.and_two_pow u 0
  norm_num at h
  norm_num
  exact h

lemma nat_and_two (u : Nat) : u &&& 2 = (u.testBit 1).toNat * 2 := by
  have h := Nat.and_two_pow u 1
  norm_num at h
  exact h

lemma nat_and_four (u : Nat) : u &&& 4 = (u.testBit 2).toNat * 4 := by
  have h := Nat.and_two_pow u 2
  norm_num at h
  exact h

lemma nat_and_sixteen (u : Nat) : u &&& 16 = (u.testBit 4).toNat * 16 := by
  have h := Nat.and_two_pow u 4
  norm_num at h
  exact h

lemma nat_and_256 (u : Nat) : u &&& 256 = (u.testBit 8).toNat * 256 := by
  have h := Nat.and_two_pow u 8
  norm_num at h
  exact h

lemma nat_and_4096 (u : Nat) : u &&& 4096 = (u.testBit 12).toNat * 4096 := by
  have h := Nat.and_two_pow u 12
  norm_num at h
  exact h

lemma severityMask_split (u : Nat) :
    u &&& severityKnownMask = (u &&& 1) ||| ((u &&& 16) ||| ((u &&& 256) ||| (u &&& 4096))) := by
  have e : severityKnownMask = 1 ||| (16 ||| (256 ||| 4096)) := by decide
  rw [e, nat_and_lor_left, nat_and_lor_left, nat_and_lor_left]

lemma messageTypeMask_split (u : Nat) :
    u &&& messageTypeKnownMask = (u &&& 1) ||| ((u &&& 2) ||| (u &&& 4)) := by
  have e : messageTypeKnownMask = 1 ||| (2 ||| 4) := by decide
  rw [e, nat_and_lor_left, nat_and_lor_left]

/-- The debug-utils → loader severity translator keeps exactly the known bits. -/
lemma DtoL_sev_eq_mask (u : Nat) :
    DebugUtilsSeveritiesToLoaderLogMessageSeverities u = u &&& severityKnownMask := by
  rw [severityMask_split]
  unfold DebugUtilsSeveritiesToLoaderLogMessageSeverities
  simp only [XR_DEBUG_UTILS_MESSAGE_SEVERITY_VERBOSE_BIT_EXT,
    XR_DEBUG_UTILS_MESSAGE_SEVERITY_INFO_BIT_EXT,
    XR_DEBUG_UTILS_MESSAGE_SEVERITY_WARNING_BIT_EXT,
    XR_DEBUG_UTILS_MESSAGE_SEVERITY_ERROR_BIT_EXT,
    XR_LOADER_LOG_MESSAGE_SEVERITY_VERBOSE_BIT, XR_LOADER_LOG_MESSAGE_SEVERITY_INFO_BIT,
    XR_LOADER_LOG_MESSAGE_SEVERITY_WARNING_BIT, XR_LOADER_LOG_MESSAGE_SEVERITY_ERROR_BIT]
  rw [nat_and_one, nat_and_sixteen, nat_and_256, nat_and_4096]
  cases u.testBit 0 <;> cases u.testBit 4 <;> cases u.testBit 8 <;> cases u.testBit 12 <;> simp

/-- The loader → debug-utils severity translator keeps exactly the known bits. -/
lemma LtoD_sev_eq_mask (u : Nat) :
    LoaderLogMessageSeveritiesToDebugUtilsMessageSeverities u = u &&& severityKnownMask := by
  rw [severityMask_split]
  unfold LoaderLogMessageSeveritiesToDebugUtilsMessageSeverities
  simp only [XR_DEBUG_UTILS_MESSAGE_SEVERITY_VERBOSE_BIT_EXT,
    XR_DEBUG_UTILS_MESSAGE_SEVERITY_INFO_BIT_EXT,
    XR_DEBUG_UTILS_MESSAGE_SEVERITY_WARNING_BIT_EXT,
    XR_DEBUG_UTILS_MESSAGE_SEVERITY_ERROR_BIT_EXT,
    XR_LOADER_LOG_MESSAGE_SEVERITY_VERBOSE_BIT, XR_LOADER_LOG_MESSAGE_SEVERITY_INFO_BIT,
    XR_LOADER_LOG_MESSAGE_SEVERITY_WARNING_BIT, XR_LOADER_LOG_MESSAGE_SEVERITY_ERROR_BIT]
  rw [nat_and_one, nat_and_sixteen, nat_and_256, nat_and_4096]
  cases u.testBit 0 <;> cases u.testBit 4 <;> cases u.testBit 8 <;> cases u.testBit 12 <;> simp

/-- The debug-utils → loader message-type translator keeps exactly the known bits. -/
lemma DtoL_type_eq_mask (u : Nat) :
    DebugUtilsMessageTypesToLoaderLogMessageTypes u = u &&& messageTypeKnownMask := by
  rw [messageTypeMask_split]
  unfold DebugUtilsMessageTypesToLoaderLogMessageTypes
  simp only [XR_DEBUG_UTILS_MESSAGE_TYPE_GENERAL_BIT_EXT,
    XR_DEBUG_UTILS_MESSAGE_TYPE_VALIDATION_BIT_EXT,
    XR_DEBUG_UTILS_MESSAGE_TYPE_PERFORMANCE_BIT_EXT,
    XR_LOADER_LOG_MESSAGE_TYPE_GENERAL_BIT, XR_LOADER_LOG_MESSAGE_TYPE_SPECIFICATION_BIT,
    XR_LOADER_LOG_MESSAGE_TYPE_PERFORMANCE_BIT]
  rw [nat_and_one, nat_and_two, nat_and_four]
  cases u.testBit 0 <;> cases u.testBit 1 <;> cases u.testBit 2 <;> simp

/-- The loader → debug-utils message-type translator keeps exactly the known bits. -/
lemma LtoD_type_eq_mask (u : Nat) :
    LoaderLogMessageTypesToDebugUtilsMessageTypes u = u &&& messageTypeKnownMask := by
  rw [messageTypeMask_split]
  unfold LoaderLogMessageTypesToDebugUtilsMessageTypes
  simp only [XR_DEBUG_UTILS_MESSAGE_TYPE_GENERAL_BIT_EXT,
    XR_DEBUG_UTILS_MESSAGE_TYPE_VALIDATION_BIT_EXT,
    XR_DEBUG_UTILS_MESSAGE_TYPE_PERFORMANCE_BIT_EXT,
    XR_LOADER_LOG_MESSAGE_TYPE_GENERAL_BIT, XR_LOADER_LOG_MESSAGE_TYPE_SPECIFICATION_BIT,
    XR_LOADER_LOG_MESSAGE_TYPE_PERFORMANCE_BIT]
  rw [nat_and_one, nat_and_two, nat_and_four]
  cases u.testBit 0 <;> cases u.testBit 1 <;> cases u.testBit 2 <;> simp

lemma and_mask_and (u m b : Nat) (hb : m &&& b = b) : (u &&& m) &&& b = u &&& b := by
  rw [Nat.and_assoc, hb]

lemma and_mask_idem (u m : Nat) : (u &&& m) &&& m = u &&& m := by
  rw [Nat.and_assoc, Nat.and_self]

/-- `XrSdkLogObjectInfo` (declared in `loader_logger.hpp`): an object handle, its
object type, and an optional caller-assigned name (empty when absent). -/
structure XrSdkLogObjectInfo where
  handle : Nat
  objectType : Nat
  name : String
deriving DecidableEq, Repr

/-- `XrDebugUtilsObjectNameInfoEXT`: the debug-utils view of a named object. -/
structure XrDebugUtilsObjectNameInfoEXT where
  objectType : Nat
  objectHandle : Nat
  objectName : String
deriving DecidableEq, Repr

/-- `XrDebugUtilsLabelEXT`: a session label; only its name matters here. -/
structure XrDebugUtilsLabelEXT where
  labelName : String
deriving DecidableEq, Repr

/-- `XrLoaderLogMessengerCallbackData` (declared in `loader_logger.hpp`): the payload
handed to a recorder's generic render. The C++ `objects`/`session_labels` pointers
are `none` exactly when the source sets them to `nullptr`; the 8-bit counts are kept
as `Nat` already reduced by the `uint8_t` cast. -/
structure XrLoaderLogMessengerCallbackData where
  message_id : String
  command_name : String
  message : String
  objects : Option (List XrSdkLogObjectInfo)
  object_count : Nat
  session_labels : Option (List XrDebugUtilsLabelEXT)
  session_labels_count : Nat

/-- `XrDebugUtilsMessengerCallbackDataEXT`: the payload of the extension-specific
path, carrying its own object and label arrays. -/
structure XrDebugUtilsMessengerCallbackDataEXT where
  messageId : String
  functionName : String
  message : String
  objects : List XrDebugUtilsObjectNameInfoEXT
  sessionLabels : List XrDebugUtilsLabelEXT

/-- Modelled from the spec: the recorder kind discriminant (`XrLoaderLogType`,
declared in `loader_logger.hpp`, not part of this translation unit) — "a kind
(generic vs. extension-specific)"; `XR_LOADER_LOG_DEBUG_UTILS` is the
extension-specific kind. -/
inductive XrLoaderLogType where
  | XR_LOADER_LOG_UNKNOWN
  | XR_LOADER_LOG_STD_OUTPUT
  | XR_LOADER_LOG_STD_ERROR
  | XR_LOADER_LOG_DEBUG_UTILS
deriving DecidableEq, Repr

/-- A `LoaderLogRecorder`: unique identifier, kind, severity filter, message-type
filter, and the two virtual render entry points, its generic `LogMessage` and its
extension-specific `LogDebugUtilsMessage`, each returning the recorder's
"should the process terminate" signal. -/
structure LoaderLogRecorder where
  uniqueId : Nat
  type : XrLoaderLogType
  messageSeverities : Nat
  messageTypes : Nat
  logMessage : Nat → Nat → XrLoaderLogMessengerCallbackData → Bool
  logDebugUtilsMessage : Nat → Nat → XrDebugUtilsMessengerCallbackDataEXT → Bool

/-- `LoaderLogRecorder::LogDebugUtilsMessage` (loader_logger.cpp lines 42-46): the
base-class implementation of the extension-specific render ignores all of its
arguments and returns `false`. -/
def LoaderLogRecorder.baseLogDebugUtilsMessage (_message_severity _message_type : Nat)
    (_callback_data : XrDebugUtilsMessengerCallbackDataEXT) : Bool :=
  false

/-- The auxiliary context store `DebugUtilsData` (declared in `loader_logger.hpp`):
an object-name table and per-session label stacks. -/
structure DebugUtilsData where
  object_info : List XrSdkLogObjectInfo
  session_labels : List (Nat × List XrDebugUtilsLabelEXT)

/-- The empty auxiliary store a freshly constructed logger holds. -/
def DebugUtilsData.empty : DebugUtilsData :=
  { object_info := [], session_labels := [] }

/-- Modelled from the spec: name lookup in the object-name table — "Looking up a
name for an unregistered handle: resolves to an empty/absent name, not a fault". -/
def DebugUtilsData.lookupName (data : DebugUtilsData) (handle : Nat) : String :=
  match data.object_info.find? (fun o => o.handle == handle) with
  | some o => o.name
  | none => ""

/-- The `NamesAndLabels` aggregate returned by `DebugUtilsData::PopulateNamesAndLabels`:
parallel resolved object lists in both vocabularies plus the active labels. -/
structure NamesAndLabels where
  objects : List XrDebugUtilsObjectNameInfoEXT
  sdk_objects : List XrSdkLogObjectInfo
  labels : List XrDebugUtilsLabelEXT

/-- Modelled from the spec: `DebugUtilsData::PopulateNamesAndLabels` (implemented
outside this translation unit) — "given a sequence of object handles, produces:
(a) a sequence of resolved object descriptors (type, handle, resolved name or
empty), preserving input order and count; (b) a flattened view of all currently
active label names across relevant sessions, ordered oldest-pushed to
newest-pushed". Read-only on the store. -/
def DebugUtilsData.PopulateNamesAndLabels (data : DebugUtilsData)
    (objects : List XrSdkLogObjectInfo) : NamesAndLabels :=
  let sdk_objects := objects.map fun o => { o with name := data.lookupName o.handle }
  { objects := sdk_objects.map fun o =>
      { objectType := o.objectType, objectHandle := o.handle, objectName := o.name }
    sdk_objects := sdk_objects
    labels := (data.session_labels.filter fun sl =>
        objects.any fun o => o.handle == sl.1).foldr (fun sl acc => sl.2 ++ acc) [] }

/-- Modelled from the spec: `DebugUtilsData::AugmentCallbackData` — "takes a message
payload already carrying its own object/label arrays, clones and extends it using
the same name/label resolution policy"; "if the incoming payload already supplies a
non-empty name for an object, that name wins over the table". -/
def DebugUtilsData.AugmentCallbackData (data : DebugUtilsData)
    (raw : XrDebugUtilsMessengerCallbackDataEXT) : XrDebugUtilsMessengerCallbackDataEXT :=
  { raw with
    objects := raw.objects.map fun o =>
      if o.objectName ≠ "" then o
      else { o with objectName := data.lookupName o.objectHandle }
    sessionLabels := raw.sessionLabels ++
      (data.session_labels.filter fun sl =>
        raw.objects.any fun o => o.objectHandle == sl.1).foldr (fun sl acc => sl.2 ++ acc) [] }

/-- The process-wide `LoaderLogger`: the recorder registry and the auxiliary store. -/
structure LoaderLogger where
  _recorders : List LoaderLogRecorder
  data_ : DebugUtilsData

/-- The `static_cast<uint8_t>(...)` applied to the object and label counts in
`LoaderLogger::LogMessage` (lines 157 and 160): truncation to 8 bits. -/
def static_cast_uint8 (n : Nat) : Nat := n % 256

/-- The construction of `callback_data` in `LoaderLogger::LogMessage`
(lines 150-160): resolve names and labels, point at the resolved arrays (null when
empty), and store the counts through the `uint8_t` cast. -/
def LoaderLogger.buildCallbackData (logger : LoaderLogger)
    (message_id command_name message : String) (objects : List XrSdkLogObjectInfo) :
    XrLoaderLogMessengerCallbackData :=
  let names_and_labels := logger.data_.PopulateNamesAndLabels objects
  { message_id := message_id
    command_name := command_name
    message := message
    objects := if names_and_labels.sdk_objects.isEmpty then none
               else some names_and_labels.sdk_objects
    object_count := static_cast_uint8 names_and_labels.objects.length
    session_labels := if names_and_labels.labels.isEmpty then none
                      else some names_and_labels.labels
    session_labels_count := static_cast_uint8 names_and_labels.labels.length }

/-- The recorder loop of `LoaderLogger::LogMessage` (lines 162-169): walk the
registry in order; when `(severities & s) == s && (types & t) == t`, OR the
recorder's generic render result into `exit_app`. The second component instruments
the loop with one `Bool` per recorder recording whether that recorder was invoked. -/
def logMessageLoop (message_severity message_type : Nat)
    (callback_data : XrLoaderLogMessengerCallbackData) :
    List LoaderLogRecorder → Bool → Bool × List Bool
  | [], exit_app => (exit_app, [])
  | recorder :: rest, exit_app =>
    if (recorder.messageSeverities &&& message_severity) = message_severity ∧
       (recorder.messageTypes &&& message_type) = message_type then
      let next := logMessageLoop message_severity message_type callback_data rest
        (exit_app || recorder.logMessage message_severity message_type callback_data)
      (next.1, true :: next.2)
    else
      let next := logMessageLoop message_severity message_type callback_data rest exit_app
      (next.1, false :: next.2)

/-- `LoaderLogger::LogMessage` (lines 147-170). The first component is the C++
return value (the accumulated `exit_app`); the second is the instrumentation trace
of which recorders were invoked, in registry order. -/
def LoaderLogger.LogMessage (logger : LoaderLogger)
    (message_severity message_type : Nat) (message_id command_name message : String)
    (objects : List XrSdkLogObjectInfo) : Bool × List Bool :=
  logMessageLoop message_severity message_type
    (logger.buildCallbackData message_id command_name message objects)
    logger._recorders false

/-- The recorder loop of `LoaderLogger::LogDebugUtilsMessage` (lines 183-192):
`continue` past any recorder that is not of the debug-utils kind or whose filters
do not contain the translated severity/type bits; otherwise OR the recorder's
extension-specific render (called with the untranslated bits) into `exit_app`.
Instrumented like `logMessageLoop`. -/
def logDebugUtilsLoop (message_severity message_type log_message_severity log_message_type : Nat)
    (callback_data_to_use : XrDebugUtilsMessengerCallbackDataEXT) :
    List LoaderLogRecorder → Bool → Bool × List Bool
  | [], exit_app => (exit_app, [])
  | recorder :: rest, exit_app =>
    if recorder.type ≠ XrLoaderLogType.XR_LOADER_LOG_DEBUG_UTILS ∨
       (recorder.messageSeverities &&& log_message_severity) ≠ log_message_severity ∨
       (recorder.messageTypes &&& log_message_type) ≠ log_message_type then
      let next := logDebugUtilsLoop message_severity message_type log_message_severity
        log_message_type callback_data_to_use rest exit_app
      (next.1, false :: next.2)
    else
      let next := logDebugUtilsLoop message_severity message_type log_message_severity
        log_message_type callback_data_to_use rest
        (exit_app || recorder.logDebugUtilsMessage message_severity message_type callback_data_to_use)
      (next.1, true :: next.2)

/-- `LoaderLogger::LogDebugUtilsMessage` (lines 173-194): translate the flags into
the native vocabulary, augment the payload, then run the kind-gated loop. First
component is the C++ return value; second is the invocation trace. -/
def LoaderLogger.LogDebugUtilsMessage (logger : LoaderLogger)
    (message_severity message_type : Nat)
    (callback_data : XrDebugUtilsMessengerCallbackDataEXT) : Bool × List Bool :=
  let log_message_severity := DebugUtilsSeveritiesToLoaderLogMessageSeverities message_severity
  let log_message_type := DebugUtilsMessageTypesToLoaderLogMessageTypes message_type
  let augmented := logger.data_.AugmentCallbackData callback_data
  logDebugUtilsLoop message_severity message_type log_message_severity log_message_type
    augmented logger._recorders false

/-- Modelled from the spec: `MakeStdErrLoaderLogRecorder` (implemented in
`loader_logger_recorders.cpp`, not part of this translation unit) — "a default
recorder that renders only ERROR-severity, all-category messages to a standard
diagnostic stream". Its renders report no termination request. -/
def MakeStdErrLoaderLogRecorder : LoaderLogRecorder :=
  { uniqueId := 1
    type := XrLoaderLogType.XR_LOADER_LOG_STD_ERROR
    messageSeverities := XR_LOADER_LOG_MESSAGE_SEVERITY_ERROR_BIT
    messageTypes := XR_LOADER_LOG_MESSAGE_TYPE_DEFAULT_BITS
    logMessage := fun _ _ _ => false
    logDebugUtilsMessage := LoaderLogRecorder.baseLogDebugUtilsMessage }

/-- Modelled from the spec: `MakeStdOutLoaderLogRecorder` — "a second recorder to a
standard output stream whose severity filter is" the flags passed by the
constructor "and whose category filter is unrestricted (all categories)". -/
def MakeStdOutLoaderLogRecorder (debug_flags : Nat) : LoaderLogRecorder :=
  { uniqueId := 2
    type := XrLoaderLogType.XR_LOADER_LOG_STD_OUTPUT
    messageSeverities := debug_flags
    messageTypes := XR_LOADER_LOG_MESSAGE_TYPE_DEFAULT_BITS
    logMessage := fun _ _ _ => false
    logDebugUtilsMessage := LoaderLogRecorder.baseLogDebugUtilsMessage }

/-- `LoaderLogger::LoaderLogger` (lines 114-138): always add the stderr recorder;
then, when the `XR_LOADER_DEBUG` environment value is present (`loader_debug`
is `some`), compute `debug_flags` from the keyword (zero-initialized, left at 0
for an unrecognized keyword) and add the stdout recorder. `none` models the
variable being unset. -/
def LoaderLogger.construct (loader_debug : Option String) : LoaderLogger :=
  let logger : LoaderLogger := { _recorders := [MakeStdErrLoaderLogRecorder],
                                 data_ := DebugUtilsData.empty }
  match loader_debug with
  | none => logger
  | some debug_string =>
    let debug_flags : Nat := 0
    let debug_flags :=
      if debug_string = "error" then
        XR_LOADER_LOG_MESSAGE_SEVERITY_ERROR_BIT
      else if debug_string = "warn" then
        XR_LOADER_LOG_MESSAGE_SEVERITY_ERROR_BIT ||| XR_LOADER_LOG_MESSAGE_SEVERITY_WARNING_BIT
      else if debug_string = "info" then
        XR_LOADER_LOG_MESSAGE_SEVERITY_ERROR_BIT ||| XR_LOADER_LOG_MESSAGE_SEVERITY_WARNING_BIT |||
          XR_LOADER_LOG_MESSAGE_SEVERITY_INFO_BIT
      else if debug_string = "all" ∨ debug_string = "verbose" then
        XR_LOADER_LOG_MESSAGE_SEVERITY_ERROR_BIT ||| XR_LOADER_LOG_MESSAGE_SEVERITY_WARNING_BIT |||
          XR_LOADER_LOG_MESSAGE_SEVERITY_INFO_BIT ||| XR_LOADER_LOG_MESSAGE_SEVERITY_VERBOSE_BIT
      else debug_flags
    { logger with _recorders := logger._recorders ++ [MakeStdOutLoaderLogRecorder debug_flags] }

/-- Modelled from the spec: `vector_remove_if_and_erase` (`extra_algorithms.h`, not
part of this translation unit) — "removes the first (and expected-only) entry whose
identifier matches; no-op if absent". -/
def vector_remove_if_and_erase (p : LoaderLogRecorder → Bool) :
    List LoaderLogRecorder → List LoaderLogRecorder
  | [] => []
  | recorder :: rest =>
    if p recorder then rest else recorder :: vector_remove_if_and_erase p rest

/-- `LoaderLogger::RemoveLogRecorder` (lines 142-145): erase the recorder whose
`UniqueId()` equals `unique_id`. -/
def LoaderLogger.RemoveLogRecorder (logger : LoaderLogger) (unique_id : Nat) : LoaderLogger :=
  { logger with
    _recorders := vector_remove_if_and_erase
      (fun recorder => recorder.uniqueId == unique_id) logger._recorders }

/-- The generic-path filter predicate of lines 164-165: the recorder's filters must
contain every bit of the message severity and message type. -/
def genericMatch (message_severity message_type : Nat) (recorder : LoaderLogRecorder) : Prop :=
  (recorder.messageSeverities &&& message_severity) = message_severity ∧
  (recorder.messageTypes &&& message_type) = message_type

instance (s t : Nat) (r : LoaderLogRecorder) : Decidable (genericMatch s t r) :=
  inferInstanceAs (Decidable (And _ _))

/-- The debug-utils-path filter predicate of lines 185-187, stated positively: the
recorder is of the debug-utils kind and its filters contain the translated bits. -/
def debugUtilsMatch (log_message_severity log_message_type : Nat)
    (recorder : LoaderLogRecorder) : Prop :=
  recorder.type = XrLoaderLogType.XR_LOADER_LOG_DEBUG_UTILS ∧
  (recorder.messageSeverities &&& log_message_severity) = log_message_severity ∧
  (recorder.messageTypes &&& log_message_type) = log_message_type

instance (ls lt : Nat) (r : LoaderLogRecorder) : Decidable (debugUtilsMatch ls lt r) :=
  inferInstanceAs (Decidable (And _ _))

lemma logMessageLoop_cons_pos (s t : Nat) (cb : XrLoaderLogMessengerCallbackData)
    (r : LoaderLogRecorder) (rest : List LoaderLogRecorder) (b : Bool)
    (h : genericMatch s t r) :
    logMessageLoop s t cb (r :: rest) b =
      ((logMessageLoop s t cb rest (b || r.logMessage s t cb)).1,
       true :: (logMessageLoop s t cb rest (b || r.logMessage s t cb)).2) := by
  simp only [logMessageLoop]
  exact if_pos h

lemma logMessageLoop_cons_neg (s t : Nat) (cb : XrLoaderLogMessengerCallbackData)
    (r : LoaderLogRecorder) (rest : List LoaderLogRecorder) (b : Bool)
    (h : ¬ genericMatch s t r) :
    logMessageLoop s t cb (r :: rest) b =
      ((logMessageLoop s t cb rest b).1, false :: (logMessageLoop s t cb rest b).2) := by
  simp only [logMessageLoop]
  exact if_neg h

lemma logMessageLoop_snd (s t : Nat) (cb : XrLoaderLogMessengerCallbackData) :
    ∀ (l : List LoaderLogRecorder) (b : Bool),
      (logMessageLoop s t cb l b).2 = l.map fun r => decide (genericMatch s t r)
  | [], _ => rfl
  | r :: rest, b => by
    by_cases h : genericMatch s t r
    · rw [logMessageLoop_cons_pos s t cb r rest b h]
      simp [h, logMessageLoop_snd s t cb rest]
    · rw [logMessageLoop_cons_neg s t cb r rest b h]
      simp [h, logMessageLoop_snd s t cb rest]

lemma logMessageLoop_fst_acc (s t : Nat) (cb : XrLoaderLogMessengerCallbackData) :
    ∀ (l : List LoaderLogRecorder) (b : Bool),
      (logMessageLoop s t cb l b).1 = (b || (logMessageLoop s t cb l false).1)
  | [], b => by simp [logMessageLoop]
  | r :: rest, b => by
    by_cases h : genericMatch s t r
    · rw [logMessageLoop_cons_pos s t cb r rest b h, logMessageLoop_cons_pos s t cb r rest false h]
      simp only [logMessageLoop_fst_acc s t cb rest (b || r.logMessage s t cb),
        logMessageLoop_fst_acc s t cb rest (false || r.logMessage s t cb)]
      simp [Bool.or_assoc]
    · rw [logMessageLoop_cons_neg s t cb r rest b h, logMessageLoop_cons_neg s t cb r rest false h]
      exact logMessageLoop_fst_acc s t cb rest b

lemma logMessageLoop_fst (s t : Nat) (cb : XrLoaderLogMessengerCallbackData) :
    ∀ l : List LoaderLogRecorder,
      (logMessageLoop s t cb l false).1 =
        (l.filter fun r => decide (genericMatch s t r)).any fun r => r.logMessage s t cb
  | [] => rfl
  | r :: rest => by
    by_cases h : genericMatch s t r
    · rw [logMessageLoop_cons_pos s t cb r rest false h]
      simp only [logMessageLoop_fst_acc s t cb rest (false || r.logMessage s t cb),
        logMessageLoop_fst s t cb rest]
      simp [List.filter_cons, h]
    · rw [logMessageLoop_cons_neg s t cb r rest false h]
      simp only [logMessageLoop_fst s t cb rest]
      simp [List.filter_cons, h]

lemma logDebugUtilsLoop_cond (ls lt : Nat) (r : LoaderLogRecorder) :
    (r.type ≠ XrLoaderLogType.XR_LOADER_LOG_DEBUG_UTILS ∨
     (r.messageSeverities &&& ls) ≠ ls ∨ (r.messageTypes &&& lt) ≠ lt) ↔
      ¬ debugUtilsMatch ls lt r := by
  rw [debugUtilsMatch]
  tauto

lemma logDebugUtilsLoop_cons_pos (s t ls lt : Nat) (cb : XrDebugUtilsMessengerCallbackDataEXT)
    (r : LoaderLogRecorder) (rest : List LoaderLogRecorder) (b : Bool)
    (h : debugUtilsMatch ls lt r) :
    logDebugUtilsLoop s t ls lt cb (r :: rest) b =
      ((logDebugUtilsLoop s t ls lt cb rest (b || r.logDebugUtilsMessage s t cb)).1,
       true :: (logDebugUtilsLoop s t ls lt cb rest (b || r.logDebugUtilsMessage s t cb)).2) := by
  simp only [logDebugUtilsLoop]
  exact if_neg fun hn => (logDebugUtilsLoop_cond ls lt r).mp hn h

lemma logDebugUtilsLoop_cons_neg (s t ls lt : Nat) (cb : XrDebugUtilsMessengerCallbackDataEXT)
    (r : LoaderLogRecorder) (rest : List LoaderLogRecorder) (b : Bool)
    (h : ¬ debugUtilsMatch ls lt r) :
    logDebugUtilsLoop s t ls lt cb (r :: rest) b =
      ((logDebugUtilsLoop s t ls lt cb rest b).1,
       false :: (logDebugUtilsLoop s t ls lt cb rest b).2) := by
  simp only [logDebugUtilsLoop]
  exact if_pos ((logDebugUtilsLoop_cond ls lt r).mpr h)

lemma logDebugUtilsLoop_snd (s t ls lt : Nat) (cb : XrDebugUtilsMessengerCallbackDataEXT) :
    ∀ (l : List LoaderLogRecorder) (b : Bool),
      (logDebugUtilsLoop s t ls lt cb l b).2 = l.map fun r => decide (debugUtilsMatch ls lt r)
  | [], _ => rfl
  | r :: rest, b => by
    by_cases h : debugUtilsMatch ls lt r
    · rw [logDebugUtilsLoop_cons_pos s t ls lt cb r rest b h]
      simp [h, logDebugUtilsLoop_snd s t ls lt cb rest]
    · rw [logDebugUtilsLoop_cons_neg s t ls lt cb r rest b h]
      simp [h, logDebugUtilsLoop_snd s t ls lt cb rest]

lemma logDebugUtilsLoop_fst_acc (s t ls lt : Nat) (cb : XrDebugUtilsMessengerCallbackDataEXT) :
    ∀ (l : List LoaderLogRecorder) (b : Bool),
      (logDebugUtilsLoop s t ls lt cb l b).1 =
        (b || (logDebugUtilsLoop s t ls lt cb l false).1)
  | [], b => by simp [logDebugUtilsLoop]
  | r :: rest, b => by
    by_cases h : debugUtilsMatch ls lt r
    · rw [logDebugUtilsLoop_cons_pos s t ls lt cb r rest b h,
        logDebugUtilsLoop_cons_pos s t ls lt cb r rest false h]
      simp only [logDebugUtilsLoop_fst_acc s t ls lt cb rest (b || r.logDebugUtilsMessage s t cb),
        logDebugUtilsLoop_fst_acc s t ls lt cb rest (false || r.logDebugUtilsMessage s t cb)]
      simp [Bool.or_assoc]
    · rw [logDebugUtilsLoop_cons_neg s t ls lt cb r rest b h,
        logDebugUtilsLoop_cons_neg s t ls lt cb r rest false h]
      exact logDebugUtilsLoop_fst_acc s t ls lt cb rest b

lemma logDebugUtilsLoop_fst (s t ls lt : Nat) (cb : XrDebugUtilsMessengerCallbackDataEXT) :
    ∀ l : List LoaderLogRecorder,
      (logDebugUtilsLoop s t ls lt cb l false).1 =
        (l.filter fun r => decide (debugUtilsMatch ls lt r)).any
          fun r => r.logDebugUtilsMessage s t cb
  | [] => rfl
  | r :: rest => by
    by_cases h : debugUtilsMatch ls lt r
    · rw [logDebugUtilsLoop_cons_pos s t ls lt cb r rest false h]
      simp only [logDebugUtilsLoop_fst_acc s t ls lt cb rest
        (false || r.logDebugUtilsMessage s t cb), logDebugUtilsLoop_fst s t ls lt cb rest]
      simp [List.filter_cons, h]
    · rw [logDebugUtilsLoop_cons_neg s t ls lt cb r rest false h]
      simp only [logDebugUtilsLoop_fst s t ls lt cb rest]
      simp [List.filter_cons, h]

lemma vector_remove_eq_filter (p : LoaderLogRecorder → Bool) :
    ∀ l : List LoaderLogRecorder, l.countP p ≤ 1 →
      vector_remove_if_and_erase p l = l.filter fun r => !(p r)
  | [], _ => rfl
  | r :: rest, h => by
    rw [vector_remove_if_and_erase, List.filter_cons]
    rw [List.countP_cons] at h
    cases hp : p r
    · have hrest : rest.countP p ≤ 1 := by rw [if_neg (by simp [hp])] at h; omega
      simp [hp, vector_remove_eq_filter p rest hrest]
    · have hz : rest.countP p = 0 := by rw [if_pos hp] at h; omega
      have hall := List.countP_eq_zero.mp hz
      simp only [hp, Bool.not_true, if_pos trivial]
      simp only [Bool.false_eq_true, if_false]
      exact (List.filter_eq_self.mpr fun a ha => by simp [hall a ha]).symm

lemma vector_remove_noop (p : LoaderLogRecorder → Bool) (l : List LoaderLogRecorder)
    (h : ∀ r ∈ l, p r = false) : vector_remove_if_and_erase p l = l := by
  have hcount : l.countP p = 0 := List.countP_eq_zero.mpr fun a ha => by simp [h a ha]
  rw [vector_remove_eq_filter p l (by omega)]
  exact List.filter_eq_self.mpr fun a ha => by simp [h a ha]

/-- A permissive debug-utils-kind recorder used to instantiate theorems; it always
requests termination from both render paths. -/
def demoDebugUtilsRecorder : LoaderLogRecorder :=
  { uniqueId := 10
    type := XrLoaderLogType.XR_LOADER_LOG_DEBUG_UTILS
    messageSeverities := severityKnownMask
    messageTypes := messageTypeKnownMask
    logMessage := fun _ _ _ => true
    logDebugUtilsMessage := fun _ _ _ => true }

/-- A concrete two-recorder logger used to instantiate theorems. -/
def demoLogger : LoaderLogger :=
  { _recorders := [MakeStdErrLoaderLogRecorder, demoDebugUtilsRecorder]
    data_ := DebugUtilsData.empty }

/-- A logger whose only recorder leaves the base-class extension-specific render. -/
def demoBaseLogger : LoaderLogger :=
  { _recorders := [MakeStdErrLoaderLogRecorder]
    data_ := DebugUtilsData.empty }

/-- A concrete debug-utils payload used to instantiate theorems. -/
def demoCallbackDataEXT : XrDebugUtilsMessengerCallbackDataEXT :=
  { messageId := "XR-demo"
    functionName := "xrDemo"
    message := "demo message"
    objects := []
    sessionLabels := [] }

/-- A resolved-object list with 300 entries, longer than a `uint8_t` can count. -/
def demoObjects : List XrSdkLogObjectInfo :=
  (List.range 300).map fun i => { handle := i, objectType := 1, name := "" }

/-- Claim C1: for every message severity `s`, message type bit-set `t`, and every
recorder in the registry, `LogMessage` invokes that recorder's generic render if
and only if `(recorder.severityFilter &&& s) = s` and
`(recorder.typeFilter &&& t) = t`; the filter must contain the exact bits, mere
overlap is not enough. -/
theorem logMessage_invokes_recorder_iff (logger : LoaderLogger) (s t : Nat)
    (message_id command_name message : String) (objects : List XrSdkLogObjectInfo)
    (i : Nat) (hi : i < logger._recorders.length) :
    ((logger.LogMessage s t message_id command_name message objects).2)[i]? = some true ↔
      ((logger._recorders.get ⟨i, hi⟩).messageSeverities &&& s = s ∧
       (logger._recorders.get ⟨i, hi⟩).messageTypes &&& t = t) := by
  rw [LoaderLogger.LogMessage, logMessageLoop_snd, List.getElem?_map,
    List.getElem?_eq_getElem hi]
  simp [genericMatch, List.get_eq_getElem]

theorem logMessage_invokes_recorder_iff_witness :
    0 < demoLogger._recorders.length ∧
    (((demoLogger.LogMessage 4096 1 "m" "c" "x" []).2)[0]? = some true ↔
      ((demoLogger._recorders.get ⟨0, by decide⟩).messageSeverities &&& 4096 = 4096 ∧
       (demoLogger._recorders.get ⟨0, by decide⟩).messageTypes &&& 1 = 1)) :=
  ⟨by decide, logMessage_invokes_recorder_iff demoLogger 4096 1 "m" "c" "x" [] 0 (by decide)⟩

/-- Claim C2: `LogDebugUtilsMessage` invokes exactly the recorders whose kind is
the debug-utils kind and whose filters contain the translated native severity and
type bits; a recorder of any other kind is never invoked by this path, even when
its severity and type filters match the message. -/
theorem logDebugUtilsMessage_invokes_recorder_iff (logger : LoaderLogger) (s t : Nat)
    (callback_data : XrDebugUtilsMessengerCallbackDataEXT)
    (i : Nat) (hi : i < logger._recorders.length) :
    ((logger.LogDebugUtilsMessage s t callback_data).2)[i]? = some true ↔
      ((logger._recorders.get ⟨i, hi⟩).type = XrLoaderLogType.XR_LOADER_LOG_DEBUG_UTILS ∧
       (logger._recorders.get ⟨i, hi⟩).messageSeverities &&&
           DebugUtilsSeveritiesToLoaderLogMessageSeverities s =
         DebugUtilsSeveritiesToLoaderLogMessageSeverities s ∧
       (logger._recorders.get ⟨i, hi⟩).messageTypes &&&
           DebugUtilsMessageTypesToLoaderLogMessageTypes t =
         DebugUtilsMessageTypesToLoaderLogMessageTypes t) := by
  simp only [LoaderLogger.LogDebugUtilsMessage]
  rw [logDebugUtilsLoop_snd, List.getElem?_map, List.getElem?_eq_getElem hi]
  simp [debugUtilsMatch, List.get_eq_getElem]

theorem logDebugUtilsMessage_invokes_recorder_iff_witness :
    0 < demoLogger._recorders.length ∧
    (((demoLogger.LogDebugUtilsMessage 1 1 demoCallbackDataEXT).2)[0]? = some true ↔
      ((demoLogger._recorders.get ⟨0, by decide⟩).type =
          XrLoaderLogType.XR_LOADER_LOG_DEBUG_UTILS ∧
       (demoLogger._recorders.get ⟨0, by decide⟩).messageSeverities &&&
           DebugUtilsSeveritiesToLoaderLogMessageSeverities 1 =
         DebugUtilsSeveritiesToLoaderLogMessageSeverities 1 ∧
       (demoLogger._recorders.get ⟨0, by decide⟩).messageTypes &&&
           DebugUtilsMessageTypesToLoaderLogMessageTypes 1 =
         DebugUtilsMessageTypesToLoaderLogMessageTypes 1)) :=
  ⟨by decide,
   logDebugUtilsMessage_invokes_recorder_iff demoLogger 1 1 demoCallbackDataEXT 0 (by decide)⟩

/-- Claim C4: translating valid (known-bit) severity and type flag sets from the
native vocabulary to the debug-utils vocabulary and back yields the original bits,
and likewise starting from the debug-utils vocabulary: the two translators in each
direction are mutually inverse on valid bit-sets. -/
theorem flag_translators_roundtrip (s t : Nat)
    (hs : s &&& severityKnownMask = s) (ht : t &&& messageTypeKnownMask = t) :
    LoaderLogMessageSeveritiesToDebugUtilsMessageSeverities
        (DebugUtilsSeveritiesToLoaderLogMessageSeverities s) = s ∧
    DebugUtilsSeveritiesToLoaderLogMessageSeverities
        (LoaderLogMessageSeveritiesToDebugUtilsMessageSeverities s) = s ∧
    LoaderLogMessageTypesToDebugUtilsMessageTypes
        (DebugUtilsMessageTypesToLoaderLogMessageTypes t) = t ∧
    DebugUtilsMessageTypesToLoaderLogMessageTypes
        (LoaderLogMessageTypesToDebugUtilsMessageTypes t) = t := by
  refine ⟨?_, ?_, ?_, ?_⟩ <;>
    simp [DtoL_sev_eq_mask, LtoD_sev_eq_mask, DtoL_type_eq_mask, LtoD_type_eq_mask,
      and_mask_idem, hs, ht]

theorem flag_translators_roundtrip_witness :
    ((0x1010 : Nat) &&& severityKnownMask = 0x1010 ∧ (5 : Nat) &&& messageTypeKnownMask = 5) ∧
    (LoaderLogMessageSeveritiesToDebugUtilsMessageSeverities
        (DebugUtilsSeveritiesToLoaderLogMessageSeverities 0x1010) = 0x1010 ∧
     DebugUtilsSeveritiesToLoaderLogMessageSeverities
        (LoaderLogMessageSeveritiesToDebugUtilsMessageSeverities 0x1010) = 0x1010 ∧
     LoaderLogMessageTypesToDebugUtilsMessageTypes
        (DebugUtilsMessageTypesToLoaderLogMessageTypes 5) = 5 ∧
     DebugUtilsMessageTypesToLoaderLogMessageTypes
        (LoaderLogMessageTypesToDebugUtilsMessageTypes 5) = 5) :=
  ⟨⟨by decide, by decide⟩, flag_translators_roundtrip 0x1010 5 (by decide) (by decide)⟩

/-- Claim C5: each of the four flag-translation functions is total and maps
bit-for-bit — VERBOSE, INFO, WARNING, ERROR to the counterpart severity bit,
GENERAL and PERFORMANCE to the counterpart type bits, the native SPECIFICATION bit
to the debug-utils VALIDATION bit and vice versa — and every input bit outside the
known ones produces no output bit: the output stays inside the known mask and is
unchanged when the input is first restricted to the known mask. -/
theorem flag_translators_bit_for_bit (u : Nat) :
    (DebugUtilsSeveritiesToLoaderLogMessageSeverities u &&&
        XR_LOADER_LOG_MESSAGE_SEVERITY_VERBOSE_BIT =
      u &&& XR_DEBUG_UTILS_MESSAGE_SEVERITY_VERBOSE_BIT_EXT) ∧
    (DebugUtilsSeveritiesToLoaderLogMessageSeverities u &&&
        XR_LOADER_LOG_MESSAGE_SEVERITY_INFO_BIT =
      u &&& XR_DEBUG_UTILS_MESSAGE_SEVERITY_INFO_BIT_EXT) ∧
    (DebugUtilsSeveritiesToLoaderLogMessageSeverities u &&&
        XR_LOADER_LOG_MESSAGE_SEVERITY_WARNING_BIT =
      u &&& XR_DEBUG_UTILS_MESSAGE_SEVERITY_WARNING_BIT_EXT) ∧
    (DebugUtilsSeveritiesToLoaderLogMessageSeverities u &&&
        XR_LOADER_LOG_MESSAGE_SEVERITY_ERROR_BIT =
      u &&& XR_DEBUG_UTILS_MESSAGE_SEVERITY_ERROR_BIT_EXT) ∧
    (DebugUtilsSeveritiesToLoaderLogMessageSeverities u &&& severityKnownMask =
      DebugUtilsSeveritiesToLoaderLogMessageSeverities u) ∧
    (DebugUtilsSeveritiesToLoaderLogMessageSeverities (u &&& severityKnownMask) =
      DebugUtilsSeveritiesToLoaderLogMessageSeverities u) ∧
    (LoaderLogMessageSeveritiesToDebugUtilsMessageSeverities u &&&
        XR_DEBUG_UTILS_MESSAGE_SEVERITY_VERBOSE_BIT_EXT =
      u &&& XR_LOADER_LOG_MESSAGE_SEVERITY_VERBOSE_BIT) ∧
    (LoaderLogMessageSeveritiesToDebugUtilsMessageSeverities u &&&
        XR_DEBUG_UTILS_MESSAGE_SEVERITY_INFO_BIT_EXT =
      u &&& XR_LOADER_LOG_MESSAGE_SEVERITY_INFO_BIT) ∧
    (LoaderLogMessageSeveritiesToDebugUtilsMessageSeverities u &&&
        XR_DEBUG_UTILS_MESSAGE_SEVERITY_WARNING_BIT_EXT =
      u &&& XR_LOADER_LOG_MESSAGE_SEVERITY_WARNING_BIT) ∧
    (LoaderLogMessageSeveritiesToDebugUtilsMessageSeverities u &&&
        XR_DEBUG_UTILS_MESSAGE_SEVERITY_ERROR_BIT_EXT =
      u &&& XR_LOADER_LOG_MESSAGE_SEVERITY_ERROR_BIT) ∧
    (LoaderLogMessageSeveritiesToDebugUtilsMessageSeverities u &&& severityKnownMask =
      LoaderLogMessageSeveritiesToDebugUtilsMessageSeverities u) ∧
    (LoaderLogMessageSeveritiesToDebugUtilsMessageSeverities (u &&& severityKnownMask) =
      LoaderLogMessageSeveritiesToDebugUtilsMessageSeverities u) ∧
    (DebugUtilsMessageTypesToLoaderLogMessageTypes u &&&
        XR_LOADER_LOG_MESSAGE_TYPE_GENERAL_BIT =
      u &&& XR_DEBUG_UTILS_MESSAGE_TYPE_GENERAL_BIT_EXT) ∧
    (DebugUtilsMessageTypesToLoaderLogMessageTypes u &&&
        XR_LOADER_LOG_MESSAGE_TYPE_SPECIFICATION_BIT =
      u &&& XR_DEBUG_UTILS_MESSAGE_TYPE_VALIDATION_BIT_EXT) ∧
    (DebugUtilsMessageTypesToLoaderLogMessageTypes u &&&
        XR_LOADER_LOG_MESSAGE_TYPE_PERFORMANCE_BIT =
      u &&& XR_DEBUG_UTILS_MESSAGE_TYPE_PERFORMANCE_BIT_EXT) ∧
    (DebugUtilsMessageTypesToLoaderLogMessageTypes u &&& messageTypeKnownMask =
      DebugUtilsMessageTypesToLoaderLogMessageTypes u) ∧
    (DebugUtilsMessageTypesToLoaderLogMessageTypes (u &&& messageTypeKnownMask) =
      DebugUtilsMessageTypesToLoaderLogMessageTypes u) ∧
    (LoaderLogMessageTypesToDebugUtilsMessageTypes u &&&
        XR_DEBUG_UTILS_MESSAGE_TYPE_GENERAL_BIT_EXT =
      u &&& XR_LOADER_LOG_MESSAGE_TYPE_GENERAL_BIT) ∧
    (LoaderLogMessageTypesToDebugUtilsMessageTypes u &&&
        XR_DEBUG_UTILS_MESSAGE_TYPE_VALIDATION_BIT_EXT =
      u &&& XR_LOADER_LOG_MESSAGE_TYPE_SPECIFICATION_BIT) ∧
    (LoaderLogMessageTypesToDebugUtilsMessageTypes u &&&
        XR_DEBUG_UTILS_MESSAGE_TYPE_PERFORMANCE_BIT_EXT =
      u &&& XR_LOADER_LOG_MESSAGE_TYPE_PERFORMANCE_BIT) ∧
    (LoaderLogMessageTypesToDebugUtilsMessageTypes u &&& messageTypeKnownMask =
      LoaderLogMessageTypesToDebugUtilsMessageTypes u) ∧
    (LoaderLogMessageTypesToDebugUtilsMessageTypes (u &&& messageTypeKnownMask) =
      LoaderLogMessageTypesToDebugUtilsMessageTypes u) := by
  simp only [DtoL_sev_eq_mask, LtoD_sev_eq_mask, DtoL_type_eq_mask, LtoD_type_eq_mask]
  and_intros <;>
    first
      | exact and_mask_idem u _
      | exact and_mask_and u _ _ (by decide)

/-- Claim C6: in both dispatch entry points, every matching recorder is invoked
regardless of earlier recorders' return values (the invocation trace is exactly
the per-recorder filter decision), and the returned value is exactly the boolean
OR of the "should terminate" values of the matching recorders — `false` when none
match; a recorder's signal is never escalated and never stops the iteration. -/
theorem dispatch_or_accumulates (logger : LoaderLogger) (s t : Nat)
    (message_id command_name message : String) (objects : List XrSdkLogObjectInfo)
    (ds dt : Nat) (cbd : XrDebugUtilsMessengerCallbackDataEXT) :
    (logger.LogMessage s t message_id command_name message objects).1 =
      ((logger._recorders.filter fun r => decide (genericMatch s t r)).any fun r =>
        r.logMessage s t (logger.buildCallbackData message_id command_name message objects)) ∧
    (logger.LogMessage s t message_id command_name message objects).2 =
      (logger._recorders.map fun r => decide (genericMatch s t r)) ∧
    (logger.LogDebugUtilsMessage ds dt cbd).1 =
      ((logger._recorders.filter fun r => decide (debugUtilsMatch
          (DebugUtilsSeveritiesToLoaderLogMessageSeverities ds)
          (DebugUtilsMessageTypesToLoaderLogMessageTypes dt) r)).any fun r =>
        r.logDebugUtilsMessage ds dt (logger.data_.AugmentCallbackData cbd)) ∧
    (logger.LogDebugUtilsMessage ds dt cbd).2 =
      (logger._recorders.map fun r => decide (debugUtilsMatch
          (DebugUtilsSeveritiesToLoaderLogMessageSeverities ds)
          (DebugUtilsMessageTypesToLoaderLogMessageTypes dt) r)) := by
  refine ⟨?_, ?_, ?_, ?_⟩
  · rw [LoaderLogger.LogMessage, logMessageLoop_fst]
  · rw [LoaderLogger.LogMessage, logMessageLoop_snd]
  · simp only [LoaderLogger.LogDebugUtilsMessage]
    rw [logDebugUtilsLoop_fst]
  · simp only [LoaderLogger.LogDebugUtilsMessage]
    rw [logDebugUtilsLoop_snd]

/-- Claim C9: `LogMessage` stores the resolved object count and the session-label
count into the outgoing payload through an 8-bit cast: a resolved object list or
label list with `n` entries is reported as `n % 256`, while the data pointer still
references the full resolved list. -/
theorem logMessage_counts_cast_to_uint8 (logger : LoaderLogger)
    (message_id command_name message : String) (objects : List XrSdkLogObjectInfo)
    (h : (logger.data_.PopulateNamesAndLabels objects).sdk_objects ≠ []) :
    (logger.buildCallbackData message_id command_name message objects).object_count =
      (logger.data_.PopulateNamesAndLabels objects).objects.length % 256 ∧
    (logger.buildCallbackData message_id command_name message objects).session_labels_count =
      (logger.data_.PopulateNamesAndLabels objects).labels.length % 256 ∧
    (logger.buildCallbackData message_id command_name message objects).objects =
      some (logger.data_.PopulateNamesAndLabels objects).sdk_objects := by
  refine ⟨rfl, rfl, ?_⟩
  simp [LoaderLogger.buildCallbackData, List.isEmpty_iff, h]

set_option maxRecDepth 40000 in
theorem logMessage_counts_cast_to_uint8_witness :
    (demoLogger.data_.PopulateNamesAndLabels demoObjects).sdk_objects ≠ [] ∧
    (demoLogger.buildCallbackData "a" "b" "c" demoObjects).object_count = 44 ∧
    ((demoLogger.buildCallbackData "a" "b" "c" demoObjects).object_count =
        (demoLogger.data_.PopulateNamesAndLabels demoObjects).objects.length % 256 ∧
     (demoLogger.buildCallbackData "a" "b" "c" demoObjects).session_labels_count =
        (demoLogger.data_.PopulateNamesAndLabels demoObjects).labels.length % 256 ∧
     (demoLogger.buildCallbackData "a" "b" "c" demoObjects).objects =
        some (demoLogger.data_.PopulateNamesAndLabels demoObjects).sdk_objects) :=
  ⟨by decide, by decide,
   logMessage_counts_cast_to_uint8 demoLogger "a" "b" "c" demoObjects (by decide)⟩

/-- Claim C10: the base recorder's extension-specific render returns `false` for
every input, so a logger whose recorders all leave the base-class
`LogDebugUtilsMessage` can never report a "should terminate" signal through the
debug-utils dispatch path, regardless of severity, type, or payload. -/
theorem base_recorder_never_requests_termination (s t : Nat)
    (callback_data : XrDebugUtilsMessengerCallbackDataEXT) (logger : LoaderLogger)
    (hbase : ∀ r ∈ logger._recorders,
      r.logDebugUtilsMessage = LoaderLogRecorder.baseLogDebugUtilsMessage) :
    LoaderLogRecorder.baseLogDebugUtilsMessage s t callback_data = false ∧
    (logger.LogDebugUtilsMessage s t callback_data).1 = false := by
  refine ⟨rfl, ?_⟩
  simp only [LoaderLogger.LogDebugUtilsMessage]
  rw [logDebugUtilsLoop_fst, List.any_eq_false]
  intro r hr
  rw [hbase r (List.mem_of_mem_filter hr)]
  simp [LoaderLogRecorder.baseLogDebugUtilsMessage]

theorem base_recorder_never_requests_termination_witness :
    (∀ r ∈ demoBaseLogger._recorders,
      r.logDebugUtilsMessage = LoaderLogRecorder.baseLogDebugUtilsMessage) ∧
    (LoaderLogRecorder.baseLogDebugUtilsMessage 1 1 demoCallbackDataEXT = false ∧
     (demoBaseLogger.LogDebugUtilsMessage 1 1 demoCallbackDataEXT).1 = false) := by
  have hb : ∀ r ∈ demoBaseLogger._recorders,
      r.logDebugUtilsMessage = LoaderLogRecorder.baseLogDebugUtilsMessage := by
    intro r hr
    have he : r = MakeStdErrLoaderLogRecorder := by simpa [demoBaseLogger] using hr
    rw [he]
    rfl
  exact ⟨hb, base_recorder_never_requests_termination 1 1 demoCallbackDataEXT demoBaseLogger hb⟩

/-- Claim C3 counterexample: constructing the logger with the configuration value
present but unrecognized ("bogus") yields a registry of TWO recorders, not one —
the stdout recorder is added unconditionally whenever the value is present. -/
theorem construct_unrecognized_adds_second_recorder :
    (LoaderLogger.construct (some "bogus"))._recorders.length = 2 ∧
    ¬ (LoaderLogger.construct (some "bogus"))._recorders.length = 1 := by
  decide

/-- Claim C3 (amended): constructing the logger with the configuration value
absent yields exactly one recorder, the default error-only stderr recorder; when
the value is present but not one of "error", "warn", "info", "all", "verbose",
a second stdout recorder IS added, with severity filter 0 (so it passes no
nonzero severity). -/
theorem construct_registry_contents (s : String)
    (h : s ≠ "error" ∧ s ≠ "warn" ∧ s ≠ "info" ∧ s ≠ "all" ∧ s ≠ "verbose") :
    (LoaderLogger.construct none)._recorders.length = 1 ∧
    ((LoaderLogger.construct none)._recorders.map fun r =>
        (r.messageSeverities, r.messageTypes, r.type)) =
      [(XR_LOADER_LOG_MESSAGE_SEVERITY_ERROR_BIT, XR_LOADER_LOG_MESSAGE_TYPE_DEFAULT_BITS,
        XrLoaderLogType.XR_LOADER_LOG_STD_ERROR)] ∧
    (LoaderLogger.construct (some s))._recorders.length = 2 ∧
    ((LoaderLogger.construct (some s))._recorders.map fun r => r.messageSeverities) =
      [XR_LOADER_LOG_MESSAGE_SEVERITY_ERROR_BIT, 0] := by
  obtain ⟨h1, h2, h3, h4, h5⟩ := h
  refine ⟨rfl, rfl, ?_, ?_⟩ <;>
    simp [LoaderLogger.construct, h1, h2, h3, h4, h5, MakeStdErrLoaderLogRecorder,
      MakeStdOutLoaderLogRecorder]

theorem construct_registry_contents_witness :
    ("bogus" ≠ "error" ∧ "bogus" ≠ "warn" ∧ "bogus" ≠ "info" ∧ "bogus" ≠ "all" ∧
      "bogus" ≠ "verbose") ∧
    ((LoaderLogger.construct none)._recorders.length = 1 ∧
     ((LoaderLogger.construct none)._recorders.map fun r =>
        (r.messageSeverities, r.messageTypes, r.type)) =
      [(XR_LOADER_LOG_MESSAGE_SEVERITY_ERROR_BIT, XR_LOADER_LOG_MESSAGE_TYPE_DEFAULT_BITS,
        XrLoaderLogType.XR_LOADER_LOG_STD_ERROR)] ∧
     (LoaderLogger.construct (some "bogus"))._recorders.length = 2 ∧
     ((LoaderLogger.construct (some "bogus"))._recorders.map fun r => r.messageSeverities) =
      [XR_LOADER_LOG_MESSAGE_SEVERITY_ERROR_BIT, 0]) :=
  ⟨by decide, construct_registry_contents "bogus" (by decide)⟩

/-- Claim C7: when the configuration keyword is recognized, the second (stdout)
recorder's severity filter is the cumulative union implied by the keyword —
"error" gives ERROR; "warn" gives ERROR+WARNING; "info" gives
ERROR+WARNING+INFO; "all"/"verbose" give everything including VERBOSE — and in
particular with "info" the second recorder passes the filter test for single-bit
ERROR, WARNING and INFO messages but not for VERBOSE-only messages. -/
theorem construct_keyword_severity_filters :
    ((LoaderLogger.construct (some "error"))._recorders.map fun r => r.messageSeverities) =
      [XR_LOADER_LOG_MESSAGE_SEVERITY_ERROR_BIT,
       XR_LOADER_LOG_MESSAGE_SEVERITY_ERROR_BIT] ∧
    ((LoaderLogger.construct (some "warn"))._recorders.map fun r => r.messageSeverities) =
      [XR_LOADER_LOG_MESSAGE_SEVERITY_ERROR_BIT,
       XR_LOADER_LOG_MESSAGE_SEVERITY_ERROR_BIT ||| XR_LOADER_LOG_MESSAGE_SEVERITY_WARNING_BIT] ∧
    ((LoaderLogger.construct (some "info"))._recorders.map fun r => r.messageSeverities) =
      [XR_LOADER_LOG_MESSAGE_SEVERITY_ERROR_BIT,
       XR_LOADER_LOG_MESSAGE_SEVERITY_ERROR_BIT ||| XR_LOADER_LOG_MESSAGE_SEVERITY_WARNING_BIT |||
         XR_LOADER_LOG_MESSAGE_SEVERITY_INFO_BIT] ∧
    ((LoaderLogger.construct (some "all"))._recorders.map fun r => r.messageSeverities) =
      [XR_LOADER_LOG_MESSAGE_SEVERITY_ERROR_BIT,
       XR_LOADER_LOG_MESSAGE_SEVERITY_ERROR_BIT ||| XR_LOADER_LOG_MESSAGE_SEVERITY_WARNING_BIT |||
         XR_LOADER_LOG_MESSAGE_SEVERITY_INFO_BIT ||| XR_LOADER_LOG_MESSAGE_SEVERITY_VERBOSE_BIT] ∧
    ((LoaderLogger.construct (some "verbose"))._recorders.map fun r => r.messageSeverities) =
      [XR_LOADER_LOG_MESSAGE_SEVERITY_ERROR_BIT,
       XR_LOADER_LOG_MESSAGE_SEVERITY_ERROR_BIT ||| XR_LOADER_LOG_MESSAGE_SEVERITY_WARNING_BIT |||
         XR_LOADER_LOG_MESSAGE_SEVERITY_INFO_BIT ||| XR_LOADER_LOG_MESSAGE_SEVERITY_VERBOSE_BIT] ∧
    ((LoaderLogger.construct (some "info"))._recorders.map fun r =>
        decide (genericMatch XR_LOADER_LOG_MESSAGE_SEVERITY_ERROR_BIT
          XR_LOADER_LOG_MESSAGE_TYPE_GENERAL_BIT r)) = [true, true] ∧
    ((LoaderLogger.construct (some "info"))._recorders.map fun r =>
        decide (genericMatch XR_LOADER_LOG_MESSAGE_SEVERITY_WARNING_BIT
          XR_LOADER_LOG_MESSAGE_TYPE_GENERAL_BIT r)) = [false, true] ∧
    ((LoaderLogger.construct (some "info"))._recorders.map fun r =>
        decide (genericMatch XR_LOADER_LOG_MESSAGE_SEVERITY_INFO_BIT
          XR_LOADER_LOG_MESSAGE_TYPE_GENERAL_BIT r)) = [false, true] ∧
    ((LoaderLogger.construct (some "info"))._recorders.map fun r =>
        decide (genericMatch XR_LOADER_LOG_MESSAGE_SEVERITY_VERBOSE_BIT
          XR_LOADER_LOG_MESSAGE_TYPE_GENERAL_BIT r)) = [false, false] := by
  decide

/-- Claim C8: `RemoveLogRecorder id` removes from the registry exactly the entries
whose unique identifier equals `id` (identifiers are unique in the registry, so at
most one entry matches); when no recorder with that identifier is present the
registry is left unchanged and no error is raised, and recorders with other
identifiers are never affected. -/
theorem removeLogRecorder_exact (logger : LoaderLogger) (unique_id : Nat)
    (huniq : logger._recorders.countP (fun r => r.uniqueId == unique_id) ≤ 1) :
    (logger.RemoveLogRecorder unique_id)._recorders =
      logger._recorders.filter (fun r => !(r.uniqueId == unique_id)) ∧
    ((∀ r ∈ logger._recorders, r.uniqueId ≠ unique_id) →
      (logger.RemoveLogRecorder unique_id)._recorders = logger._recorders) := by
  constructor
  · simp only [LoaderLogger.RemoveLogRecorder]
    exact vector_remove_eq_filter _ logger._recorders huniq
  · intro hab
    simp only [LoaderLogger.RemoveLogRecorder]
    exact vector_remove_noop _ logger._recorders fun r hr => by
      rw [beq_eq_false_iff_ne]
      exact hab r hr

theorem removeLogRecorder_exact_witness :
    demoLogger._recorders.countP (fun r => r.uniqueId == 10) ≤ 1 ∧
    ((demoLogger.RemoveLogRecorder 10)._recorders =
        demoLogger._recorders.filter (fun r => !(r.uniqueId == 10)) ∧
     ((∀ r ∈ demoLogger._recorders, r.uniqueId ≠ 10) →
        (demoLogger.RemoveLogRecorder 10)._recorders = demoLogger._recorders)) :=
  ⟨by decide, removeLogRecorder_exact demoLogger 10 (by decide)⟩
